import Mathlib

/-!
Verification of the OptiHire skill-match service.

Shallow embedding of the matching, retry/fallback and assistant logic of
the repository (extension background script `OptiHireBackground` and the
Express route file `matchRoutes.js`).  JS strings are modelled as Lean
`String` (lists of characters; the inputs of interest are ASCII, where
JS UTF-16 code units and Lean characters coincide), JS numbers occurring
in the score computations as `Int`/`Rat` (the float evaluations involved
stay far enough from rounding boundaries that exact rational arithmetic
agrees with IEEE doubles on all reachable values), and fallible remote
calls as `Except`.
-/

set_option maxRecDepth 4000

/-- ASCII lowercasing, the behaviour of JS `toLowerCase` on the ASCII
strings handled here. -/
def lowerStr (s : String) : String := ⟨s.data.map Char.toLower⟩

/-- Scan for the closing parenthesis: drops everything up to and
including the first `)`, returning `none` when there is none. -/
def dropToClose : List Char → Option (List Char)
  | [] => none
  | ')' :: rest => some rest
  | _ :: rest => dropToClose rest

/-- `replace(/\([^)]*\)/g, '')`: removes every `(...)` span (a `(`
followed by the nearest `)`); a `(` with no later `)` is kept, exactly
as the regex leaves it unmatched.  Structured as fuel recursion with
fuel `l.length`, which bounds the number of scanning steps. -/
def stripParensFuel : Nat → List Char → List Char
  | 0, l => l
  | _ + 1, [] => []
  | fuel + 1, '(' :: rest =>
    match dropToClose rest with
    | some rest' => stripParensFuel fuel rest'
    | none => '(' :: stripParensFuel fuel rest
  | fuel + 1, c :: rest => c :: stripParensFuel fuel rest

def stripParens (l : List Char) : List Char := stripParensFuel l.length l

/-- The character class `[a-z0-9]` (the job text and skill tokens are
compared after ASCII lowercasing). -/
def isLowerAlnum (c : Char) : Bool :=
  ('a' ≤ c && c ≤ 'z') || ('0' ≤ c && c ≤ '9')

/-- `norm` of `localCompatibilityAnalysis`:
`s.toLowerCase().replace(/\([^)]*\)/g, '').replace(/[^a-z0-9]+/g, '')`. -/
def normToken (s : String) : String :=
  ⟨(stripParens (lowerStr s).data).filter isLowerAlnum⟩

/-- The synonym `Map` of `localCompatibilityAnalysis` (insertion order of
the source literal; keys are unique so lookup order is immaterial). -/
def localSynonyms : List (String × String) :=
  [("c++", "cpp"), ("c#", "csharp"), ("node.js", "nodejs"),
   ("react.js", "reactjs"), ("express.js", "expressjs"),
   ("google cloud", "gcp"), ("machine learning", "machinelearning"),
   ("natural language processing", "nlp"), ("js", "javascript"),
   ("cascading style sheets", "css"), ("css3", "css"), ("html5", "html"),
   ("ecmascript", "javascript"), ("es6", "javascript"), ("github", "git")]

def synLookup (table : List (String × String)) (k : String) : Option String :=
  (table.find? (fun e => e.1 == k)).map (fun e => e.2)

/-- `normalize` of `localCompatibilityAnalysis`:
`synonyms.get(s.toLowerCase()) || s.toLowerCase()` (every table value is
a non-empty string, so JS truthiness of the lookup result coincides with
`Option` presence). -/
def normalizeSyn (s : String) : String :=
  (synLookup localSynonyms (lowerStr s)).getD (lowerStr s)

/-- The full canonicalization pipeline applied to each profile skill and
each dictionary entry in `localCompatibilityAnalysis`:
`norm(normalize(s))`. -/
def localCanon (s : String) : String := normToken (normalizeSyn s)

/-- `needle` occurs at the start of `hay` (JS `String.startsWith`). -/
def leadsWith : List Char → List Char → Bool
  | [], _ => true
  | _ :: _, [] => false
  | a :: as, b :: bs => a == b && leadsWith as bs

/-- `hay.includes(needle)`: substring occurrence. -/
def hasSub : List Char → List Char → Bool
  | n, [] => leadsWith n []
  | n, c :: rest => leadsWith n (c :: rest) || hasSub n rest

/-- The pattern occurs starting exactly here and the character following
the occurrence (if any) is outside `[a-z0-9]` (the regex suffix
`([^a-z0-9]|$)`). -/
def matchEnds : List Char → List Char → Bool
  | [], [] => true
  | [], c :: _ => !(isLowerAlnum c)
  | _ :: _, [] => false
  | p :: ps, t :: ts => p == t && matchEnds ps ts

/-- Existence of a match of `(^|[^a-z0-9])PAT([^a-z0-9]|$)`: scans every
position, tracking in `startOk` whether the position is the string start
or is preceded by a character outside `[a-z0-9]`. -/
def tokenSearch : List Char → List Char → Bool → Bool
  | pat, [], startOk => startOk && matchEnds pat []
  | pat, c :: rest, startOk =>
    (startOk && matchEnds pat (c :: rest)) || tokenSearch pat rest (!(isLowerAlnum c))

/-- `new RegExp("(^|[^a-z0-9])" + escaped(canon) + "([^a-z0-9]|$)", "i").test(text)`;
the escaping only makes the pattern literal, and the `i` flag is
accounted for because both pattern and text are lowercased. -/
def wholeTokenTest (pat text : String) : Bool :=
  tokenSearch pat.data text.data true

/-- The canonical skill dictionary `skillsDb` (source order). -/
def skillsDb : List String :=
  ["python", "javascript", "js", "java", "c++", "cpp", "c#", "csharp",
   "ruby", "go", "golang", "rust", "swift", "kotlin",
   "html", "html5", "css", "css3", "react", "react.js", "reactjs",
   "angular", "vue", "node.js", "nodejs", "express", "express.js",
   "expressjs", "django", "flask", "next.js", "nextjs", "graphql",
   "sql", "mysql", "postgresql", "postgres", "mongodb", "redis", "oracle",
   "aws", "azure", "gcp", "google cloud", "docker", "kubernetes", "terraform",
   "pandas", "numpy", "scikit-learn", "sklearn", "tensorflow", "pytorch",
   "machine learning", "ml", "natural language processing", "nlp",
   "jenkins", "git", "ci/cd", "ansible", "prometheus", "grafana"]

/-- One dictionary entry is detected when the whole-token regex fires on
the lowercased job text, or its canonical form is a non-empty substring
of the fully normalized job text. -/
def detectsSkill (jobDescription : String) (canon : String) : Bool :=
  wholeTokenTest canon (lowerStr jobDescription) ||
    (localCanon canon != "" && hasSub (localCanon canon).data (normToken jobDescription).data)

/-- The detection loop of `localCompatibilityAnalysis`: walks `skillsDb`
in order, pushing matches and breaking once 10 have been collected.
`skillsDb` contains no duplicates (proved below), so the source's `seen`
set never skips anything and the loop equals taking the first 10
matches of the ordered filter. -/
def detectSkills (jobDescription : String) : List String :=
  (skillsDb.filter (detectsSkill jobDescription)).take 10

/-- Normalized profile skill collection:
`new Set((profile?.skills || []).map(s => norm(normalize(s))).filter(Boolean))`.
The JS `Set` only answers membership (`has`) and existential (`some`)
queries, both invariant under duplication, so the plain filtered list is
kept. -/
def profileNorm (skills : List String) : List String :=
  (skills.map localCanon).filter (fun s => s != "")

/-- Classification predicate for the exact bucket: the canonical form is
non-empty (`if (!n) continue`) and present verbatim in the normalized
profile set. -/
def exactPred (pNorm : List String) (c : String) : Bool :=
  localCanon c != "" && pNorm.contains (localCanon c)

/-- Classification predicate for the partial bucket: non-empty canonical
form, not an exact match, and related to some profile skill by substring
containment in either direction. -/
def partialPred (pNorm : List String) (c : String) : Bool :=
  localCanon c != "" && !(pNorm.contains (localCanon c)) &&
    pNorm.any (fun q => hasSub (localCanon c).data q.data || hasSub q.data (localCanon c).data)

/-- JS `Math.round` (round-half-up, `⌊x + 1/2⌋`), used to state the
specification-level score formula. -/
def jsRound (q : ℚ) : ℤ := ⌊q + (1 : ℚ) / 2⌋

/-- `Math.round((num / den) * 100)` for a positive denominator, as exact
integer arithmetic: `⌊100·num/den + 1/2⌋ = (200·num + den) / (2·den)`
(integer division; `jsRoundDiv_eq` below proves the identity).  The JS
source evaluates the expression in IEEE doubles, which on the values
reachable here rounds to the same integer as exact rational
arithmetic. -/
def jsRoundDiv (num : ℤ) (den : ℕ) : ℤ := (200 * num + den) / (2 * (den : ℤ))

/-- The result object of `localCompatibilityAnalysis`. -/
structure LocalResult where
  score : ℤ
  matched_skills : List String
  partial_matches : List String
  missing_skills : List String
  matched_count : Nat
  total_skills : Nat
  suggestions : List String
  analysis_source : String
  deriving DecidableEq, Repr

/-- `localCompatibilityAnalysis(profile, jobDescription, ...)` of the
background script (the `jobTitle`/`company` arguments are unused by the
computation).  The profile contributes only its `skills` array. -/
def localCompatibilityAnalysis (profileSkills : List String) (jobDescription : String) :
    LocalResult :=
  let pNorm := profileNorm profileSkills
  let present := detectSkills jobDescription
  let exactMatches := present.filter (exactPred pNorm)
  let partialMatches := present.filter (partialPred pNorm)
  let allMatches := exactMatches ++ partialMatches
  let missingSkills := present.filter (fun c => !(allMatches.contains c))
  let denom : Nat := max present.length 1
  { score := jsRoundDiv (exactMatches.length + partialMatches.length : Nat) denom
    matched_skills := exactMatches
    partial_matches := partialMatches
    missing_skills := missingSkills
    matched_count := allMatches.dedup.length
    total_skills := present.length
    suggestions :=
      ["Add missing technical skills to your profile",
       "Highlight relevant experience in your summary",
       "Include specific projects that demonstrate required skills",
       "Consider obtaining certifications for missing technologies"]
    analysis_source := "local" }

/-- The JSON object the extension receives from the backend `/api/match`
route, as consumed by `analyzeWithBackend`.  List-valued fields model an
absent field as `[]` (the source only reads them through
`?.length || 0`, spreads, or re-emits them, where the two are
indistinguishable in every property stated below); `score` and
`total_skills` keep the explicit `undefined` case because the source
applies `|| 0` resp. `??` to them. -/
structure RemoteResp where
  score : Option ℤ
  matched_skills : List String
  partial_matches : List String
  missing_skills : List String
  matched_count : Option Nat
  total_skills : Option ℤ
  suggestions : List String
  deriving DecidableEq, Repr

/-- The analysis object `analyzeWithBackend` resolves to (either branch
of the success path, or the local fallback).  `matched_count` and
`total_skills` are optional because the success path spreads the remote
object, whose fields may be absent. -/
structure ComposedResult where
  score : ℤ
  matched_skills : List String
  partial_matches : List String
  missing_skills : List String
  matched_count : Option Nat
  total_skills : Option ℤ
  suggestions : List String
  analysis_source : String
  deriving DecidableEq, Repr

/-- Success path of `analyzeWithBackend` (the backend call returned a
response).  If the remote reports zero combined matched+partial skills,
the local analysis is spliced over the spread of the remote object;
otherwise the remote skill lists are kept and only the score is
recomputed from the remote-reported counts
(`total_skills ?? matched+missing`; when that total is not positive the
remote `score || 0` is kept). -/
def analyzeWithBackendSuccess (profileSkills : List String) (jobDescription : String)
    (r : RemoteResp) : ComposedResult :=
  let backendMatched := r.matched_skills.length + r.partial_matches.length
  if backendMatched = 0 then
    let loc := localCompatibilityAnalysis profileSkills jobDescription
    { score := jsRoundDiv (loc.matched_skills.length + loc.partial_matches.length : Nat)
        (max loc.total_skills 1)
      matched_skills := loc.matched_skills
      partial_matches := loc.partial_matches
      missing_skills := loc.missing_skills
      matched_count := some loc.matched_count
      total_skills := some (loc.total_skills : ℤ)
      suggestions := r.suggestions
      analysis_source := "backend+local" }
  else
    let total : ℤ := r.total_skills.getD ((r.matched_skills.length : ℤ) + r.missing_skills.length)
    { score := if 0 < total then jsRoundDiv (r.matched_skills.length : ℤ) total.toNat
        else r.score.getD 0
      matched_skills := r.matched_skills
      partial_matches := r.partial_matches
      missing_skills := r.missing_skills
      matched_count := r.matched_count
      total_skills := r.total_skills
      suggestions := r.suggestions
      analysis_source := "backend" }

/-- Projection of a local analysis to the composed-result shape (the
extension returns the local object as-is; its JSON shape is the same
with every optional field present). -/
def localAsComposed (l : LocalResult) : ComposedResult :=
  { score := l.score
    matched_skills := l.matched_skills
    partial_matches := l.partial_matches
    missing_skills := l.missing_skills
    matched_count := some l.matched_count
    total_skills := some (l.total_skills : ℤ)
    suggestions := l.suggestions
    analysis_source := l.analysis_source }

/-- `Except.isOk` written out (whether a remote attempt succeeded). -/
def exOk {α ε : Type} : Except ε α → Bool
  | .ok _ => true
  | .error _ => false

/-- The retry loop of `router.post("/match")`: iterates over the attempt
indices (`for i = 0; i < maxRetries; i++`), breaking on the first
success; a failed attempt other than the last is followed by a
`1000 * (i + 1)` ms wait.  Returns the successful response (if any), the
number of remote calls made, and the list of waits performed. -/
def runAttempts {α : Type} (remote : Nat → Except String α) :
    List Nat → Option α × Nat × List Nat
  | [] => (none, 0, [])
  | i :: rest =>
    match remote i with
    | .ok r => (some r, 1, [])
    | .error _ =>
      let ws := if rest.isEmpty then [] else [1000 * (i + 1)]
      let out := runAttempts remote rest
      (out.1, out.2.1 + 1, ws ++ out.2.2)

/-- `maxRetries = 2` in the route: the attempt indices are `[0, 1]`. -/
def routeAttempts (remote : Nat → Except String RemoteResp) :
    Option RemoteResp × Nat × List Nat :=
  runAttempts remote (List.range 2)

/-- Number of times the ML service is called on the cache-miss path. -/
def routeAttemptCount (remote : Nat → Except String RemoteResp) : Nat :=
  (routeAttempts remote).2.1

/-- Waits (in ms) performed between attempts on the cache-miss path. -/
def routeWaits (remote : Nat → Except String RemoteResp) : List Nat :=
  (routeAttempts remote).2.2

/-- The composed resolve operation: the extension posts to the backend
route (which runs the retry loop against the ML service and normalizes
the response) and, when every remote attempt failed — the route answers
non-2xx, `callBackendAPI` throws — falls back to
`localCompatibilityAnalysis` on the same inputs.  `remote i` is the
outcome of the i-th ML attempt, already normalized to the route's
response shape. -/
def analyzeWithBackend (profileSkills : List String) (jobDescription : String)
    (remote : Nat → Except String RemoteResp) : ComposedResult :=
  match (routeAttempts remote).1 with
  | some r => analyzeWithBackendSuccess profileSkills jobDescription r
  | none => localAsComposed (localCompatibilityAnalysis profileSkills jobDescription)

/-- JS values as far as `validatePayload` observes them: it only applies
truthiness tests and `typeof`, so objects, arrays and functions need no
contents. -/
inductive JSValue where
  | vundef
  | vnull
  | vbool (b : Bool)
  | vnum (q : ℤ)
  | vstr (s : String)
  | vobj
  | varr
  | vfun
  deriving DecidableEq, Repr

/-- JS truthiness (a `NaN` case is not modelled; no claim involves it). -/
def truthy : JSValue → Bool
  | .vundef => false
  | .vnull => false
  | .vbool b => b
  | .vnum q => q != 0
  | .vstr s => s != ""
  | .vobj => true
  | .varr => true
  | .vfun => true

/-- JS `typeof`. -/
def typeOf : JSValue → String
  | .vundef => "undefined"
  | .vnull => "object"
  | .vbool _ => "boolean"
  | .vnum _ => "number"
  | .vstr _ => "string"
  | .vobj => "object"
  | .varr => "object"
  | .vfun => "function"

/-- JS `.length` as read by `validatePayload` (only reached once
`job_text` is known to be a string). -/
def jsLength : JSValue → Nat
  | .vstr s => s.length
  | _ => 0

/-- The request body `{profile, job_text}`; an absent field is
`JSValue.vundef`, and an entirely absent/falsy body is `none` at the
call site. -/
structure ReqBody where
  profile : JSValue
  job_text : JSValue
  deriving DecidableEq, Repr

/-- `validatePayload(p)` of `matchRoutes.js`: returns the error message,
or `none` when the payload is accepted. -/
def validatePayload : Option ReqBody → Option String
  | none => some "empty payload"
  | some p =>
    if !(truthy p.profile) then some "missing profile"
    else if !(truthy p.job_text) then some "missing job_text"
    else if typeOf p.profile != "object" then some "profile must be an object"
    else if typeOf p.job_text != "string" then some "job_text must be a string"
    else if jsLength p.job_text < 20 then some "job_text too short (minimum 20 characters)"
    else none

/-- What the route handler replies with and how many ML calls it made. -/
structure RouteOutcome where
  status : Nat
  code : String
  remoteCalls : Nat
  deriving DecidableEq, Repr

/-- Control flow of `router.post("/match")`: validation failure answers
400 immediately (before the cache lookup and before any remote call); a
cache hit answers from the cache with no remote call; otherwise the
retry loop runs and its failure surfaces as the 500 `ML_SERVICE_ERROR`
path (`err.response?.status || 500`; the transport errors modelled here
carry no response status). -/
def matchRouteOutcome (body : Option ReqBody) (cached : Bool)
    (remote : Nat → Except String RemoteResp) : RouteOutcome :=
  match validatePayload body with
  | some _ => { status := 400, code := "VALIDATION_ERROR", remoteCalls := 0 }
  | none =>
    if cached then { status := 200, code := "OK", remoteCalls := 0 }
    else
      match routeAttempts remote with
      | (some _, n, _) => { status := 200, code := "OK", remoteCalls := n }
      | (none, n, _) => { status := 500, code := "ML_SERVICE_ERROR", remoteCalls := n }

/-- The body the route posts to the ML service on a cache miss:
`{ profile, job: { title: '', description: job_text.slice(0, 20000) } }`. -/
structure MLRequest (P : Type) where
  profile : P
  title : String
  description : List Char
  deriving DecidableEq, Repr

/-- `safeJob = job_text.slice(0, 20000)` and the posted payload. -/
def buildMLRequest {P : Type} (profile : P) (job_text : String) : MLRequest P :=
  { profile := profile, title := "", description := job_text.data.take 20000 }

/-- The `lastMatch` object the assistant endpoints read (only these
fields are consulted; `score` is modelled as the integer the match
pipeline produces, on which `Math.round` is the identity). -/
structure LastMatch where
  score : ℤ
  matched_skills : List String
  missing_skills : List String
  suggestions : List String
  deriving DecidableEq, Repr

/-- `/pat1|pat2|.../i.test(message)`: some alternative occurs in the
lowercased message (all alternatives are lowercase literals). -/
def reTestAny (pats : List String) (message : String) : Bool :=
  pats.any (fun p => hasSub p.data (lowerStr message).data)

/-- The reply string built by `router.post('/assistant')` (the
`quick_replies`/`intent` bookkeeping is omitted; no claim concerns it). -/
def assistantRouteReply (message : String) (lastMatch : LastMatch) : String :=
  let matched := lastMatch.matched_skills.take 12
  let missing := lastMatch.missing_skills.take 12
  if reTestAny ["improv", "improve", "learn", "recommend", "how to"] message then
    let topMissing := missing.take 5
    if topMissing.length != 0 then
      "To improve your match, focus on these skills: " ++ String.intercalate ", " topMissing ++
        ". Practical steps: add projects demonstrating these skills, take short courses, and include them in your headline/summary."
    else if lastMatch.suggestions.length != 0 then
      "Suggestions: " ++ String.intercalate "; " (lastMatch.suggestions.take 3)
    else
      "I could not detect clear missing skills. Consider improving your profile summary and highlighting project experience."
  else if reTestAny ["match", "matched", "which skills", "what matched"] message then
    if matched.length != 0 then "Matched skills: " ++ String.intercalate ", " matched
    else "No matched skills were detected."
  else if reTestAny ["missing", "lack", "need to", "missing skills"] message then
    if missing.length != 0 then "Missing skills: " ++ String.intercalate ", " missing
    else "No missing skills detected."
  else if reTestAny ["score", "how good", "percent"] message then
    "Match score: " ++ toString lastMatch.score ++ "%"
  else
    let s := (if matched.length != 0 then
        ["Matched: " ++ String.intercalate ", " (matched.take 6)] else []) ++
      (if missing.length != 0 then
        ["Missing: " ++ String.intercalate ", " (missing.take 6)] else []) ++
      ["Score: " ++ toString lastMatch.score ++ "%"]
    String.intercalate " | " s

/-- Reply plus suggested quick replies of the extension fallback
assistant. -/
structure AssistantResponse where
  reply : String
  quick_replies : List String
  deriving DecidableEq, Repr

/-- `join(', ') || 'None'`. -/
def joinOrNone (l : List String) : String :=
  let j := String.intercalate ", " l
  if j = "" then "None" else j

/-- `generateFallbackAssistantResponse(message, lastMatch)` of the
background script (`lastMatch?.score || 0` is the identity on the
integer scores modelled here except for replacing an absent score by 0,
a case the claims never exercise). -/
def generateFallbackAssistantResponse (message : String) (lastMatch : LastMatch) :
    AssistantResponse :=
  let messageLower := lowerStr message
  let reply :=
    if hasSub "improve".data messageLower.data || hasSub "better".data messageLower.data then
      "Based on your " ++ toString lastMatch.score ++
        "% match score, focus on developing these skills: " ++
        String.intercalate ", " (lastMatch.missing_skills.take 5) ++
        ". Also consider gaining experience in related technologies and highlighting transferable skills in your profile."
    else if hasSub "skill".data messageLower.data && hasSub "match".data messageLower.data then
      "Your profile matches these skills: " ++ joinOrNone lastMatch.matched_skills ++
        ". These are directly mentioned in the job description and present in your profile."
    else if hasSub "missing".data messageLower.data then
      "The job requires these skills that are missing from your profile: " ++
        joinOrNone lastMatch.missing_skills ++ ". Consider learning these to improve your match."
    else if hasSub "score".data messageLower.data then
      "Your current match score is " ++ toString lastMatch.score ++
        "%. This is calculated based on skill alignment between your profile and the job requirements."
    else
      "I can help you understand your " ++ toString lastMatch.score ++
        "% match score. Ask me about matched skills, missing skills, or how to improve your compatibility."
  { reply := reply
    quick_replies := ["How can I improve?", "Which skills matched?",
      "What are the missing skills?", "What is the score?"] }

/-- ASCII whitespace trimmed by JS `String.trim` on the inputs here. -/
def isSpaceChar (c : Char) : Bool :=
  c == ' ' || c == '\t' || c == '\n' || c == '\r'

/-- Charwise `trim`. -/
def trimChars (l : List Char) : List Char :=
  ((l.dropWhile isSpaceChar).reverse.dropWhile isSpaceChar).reverse

/-- The synonym `Map` of `prepareProfileForBackend` (a different table
from `localSynonyms`: e.g. it sends both spellings of C++ to `c++` and
both spellings of React to `react`). -/
def prepareSynonyms : List (String × String) :=
  [("c++", "c++"), ("cpp", "c++"), ("c#", "c#"), ("csharp", "c#"),
   ("node.js", "node.js"), ("nodejs", "node.js"),
   ("react.js", "react"), ("reactjs", "react"),
   ("express.js", "express"), ("expressjs", "express"),
   ("google cloud", "gcp"), ("gcp", "gcp"),
   ("machine learning", "machine learning"), ("ml", "machine learning"),
   ("natural language processing", "nlp"), ("nlp", "nlp"),
   ("js", "javascript"), ("ecmascript", "javascript"), ("es6", "javascript"),
   ("css3", "css"), ("html5", "html")]

/-- Per-skill canonicalization inside `prepareProfileForBackend`:
`t = s.toLowerCase().replace(/\([^)]*\)/g, '').trim(); syn.get(t) || t`
(every table value is non-empty, so `||` coincides with the lookup
default). -/
def prepareProfileCanon (s : String) : String :=
  let t : String := ⟨trimChars (stripParens (lowerStr s).data)⟩
  (synLookup prepareSynonyms t).getD t

/-- `skillsDb` has no duplicate entries, so the `seen` set of the source
detection loop never suppresses a push and the loop is the ordered
filter truncated at 10. -/
theorem skillsDb_nodup : skillsDb.Nodup := by decide

/-- The integer-arithmetic score equals the rational round-half-up of
`100·num/den` for positive denominators. -/
theorem jsRoundDiv_eq (num : ℤ) (den : ℕ) (h : 0 < den) :
    jsRoundDiv num den = jsRound (100 * (num : ℚ) / (den : ℚ)) := by
  have hd : ((den : ℚ)) ≠ 0 := by
    exact_mod_cast Nat.pos_iff_ne_zero.mp h
  have key : 100 * (num : ℚ) / (den : ℚ) + (1 : ℚ) / 2 =
      ((200 * num + den : ℤ) : ℚ) / ((2 * den : ℕ) : ℚ) := by
    push_cast
    field_simp
    ring
  unfold jsRound jsRoundDiv
  rw [key, Rat.floor_intCast_div_natCast]
  push_cast
  ring_nf

theorem local_matched_def (ps : List String) (jt : String) :
    (localCompatibilityAnalysis ps jt).matched_skills =
      (detectSkills jt).filter (exactPred (profileNorm ps)) := rfl

theorem local_partial_def (ps : List String) (jt : String) :
    (localCompatibilityAnalysis ps jt).partial_matches =
      (detectSkills jt).filter (partialPred (profileNorm ps)) := rfl

theorem local_missing_def (ps : List String) (jt : String) :
    (localCompatibilityAnalysis ps jt).missing_skills =
      (detectSkills jt).filter (fun c =>
        !(((detectSkills jt).filter (exactPred (profileNorm ps)) ++
           (detectSkills jt).filter (partialPred (profileNorm ps))).contains c)) := rfl

theorem local_total_def (ps : List String) (jt : String) :
    (localCompatibilityAnalysis ps jt).total_skills = (detectSkills jt).length := rfl

theorem local_score_def (ps : List String) (jt : String) :
    (localCompatibilityAnalysis ps jt).score =
      jsRoundDiv
        ((((detectSkills jt).filter (exactPred (profileNorm ps))).length +
          ((detectSkills jt).filter (partialPred (profileNorm ps))).length : ℕ))
        (max (detectSkills jt).length 1) := rfl

/-- A detected entry cannot be both an exact and a partial match. -/
theorem exactPred_not_partialPred (pNorm : List String) (c : String)
    (h : exactPred pNorm c = true) : partialPred pNorm c = false := by
  unfold exactPred at h
  have h12 : (localCanon c != "") = true ∧ pNorm.contains (localCanon c) = true := by
    simpa using h
  have hmem : localCanon c ∈ pNorm := by
    simpa using h12.2
  unfold partialPred
  simp [hmem]

/-- Two mutually exclusive filters of the same list together keep at
most every element once. -/
theorem filter_disjoint_length_le {α : Type} (p q : α → Bool)
    (hpq : ∀ a, p a = true → q a = false) :
    ∀ l : List α, (l.filter p).length + (l.filter q).length ≤ l.length := by
  intro l
  induction l with
  | nil => simp
  | cons a t ih =>
    simp only [List.filter_cons]
    by_cases hp : p a = true
    · have hq := hpq a hp
      simp [hp, hq]
      omega
    · have hp' : p a = false := by
        simpa using hp
      simp only [hp']
      by_cases hq : q a = true
      · simp [hq]
        omega
      · have hq' : q a = false := by
          simpa using hq
        simp [hq']
        omega

/-- A prefix of a list stays a prefix after appending on the right. -/
theorem leadsWith_append (n h t : List Char) (hh : leadsWith n h = true) :
    leadsWith n (h ++ t) = true := by
  induction n generalizing h with
  | nil => simp [leadsWith]
  | cons a as ih =>
    cases h with
    | nil => simp [leadsWith] at hh
    | cons b bs =>
      simp only [leadsWith, Bool.and_eq_true] at hh
      simp only [List.cons_append, leadsWith, Bool.and_eq_true]
      exact ⟨hh.1, ih bs hh.2⟩

/-- A substring occurrence survives appending on the right. -/
theorem hasSub_append (n h t : List Char) (hh : hasSub n h = true) :
    hasSub n (h ++ t) = true := by
  induction h with
  | nil =>
    simp only [hasSub] at hh
    have hn : n = [] := by
      cases n with
      | nil => rfl
      | cons a as => simp [leadsWith] at hh
    subst hn
    cases t with
    | nil => simp [hasSub, leadsWith]
    | cons c cs => simp [hasSub, leadsWith]
  | cons c cs ih =>
    simp only [hasSub, Bool.or_eq_true] at hh
    rcases hh with hh | hh
    · simp only [List.cons_append, hasSub, Bool.or_eq_true]
      exact Or.inl (leadsWith_append n (c :: cs) t hh)
    · simp only [List.cons_append, hasSub, Bool.or_eq_true]
      exact Or.inr (ih hh)

/-- C3: the three buckets of `localCompatibilityAnalysis` partition the
detected skill list: every detected skill lands in at least one bucket,
every bucket element is detected, and the buckets are pairwise
disjoint — so each detected skill is in exactly one bucket. -/
theorem c3_buckets_partition_detected (ps : List String) (jt : String) :
    (∀ s, s ∈ detectSkills jt ↔
      (s ∈ (localCompatibilityAnalysis ps jt).matched_skills ∨
       s ∈ (localCompatibilityAnalysis ps jt).partial_matches ∨
       s ∈ (localCompatibilityAnalysis ps jt).missing_skills)) ∧
    (∀ s, s ∈ (localCompatibilityAnalysis ps jt).matched_skills →
      s ∉ (localCompatibilityAnalysis ps jt).partial_matches) ∧
    (∀ s, s ∈ (localCompatibilityAnalysis ps jt).matched_skills →
      s ∉ (localCompatibilityAnalysis ps jt).missing_skills) ∧
    (∀ s, s ∈ (localCompatibilityAnalysis ps jt).partial_matches →
      s ∉ (localCompatibilityAnalysis ps jt).missing_skills) := by
  simp only [local_matched_def, local_partial_def, local_missing_def]
  refine ⟨?_, ?_, ?_, ?_⟩
  · intro s
    constructor
    · intro hs
      by_cases he : exactPred (profileNorm ps) s = true
      · exact Or.inl (List.mem_filter.mpr ⟨hs, he⟩)
      · by_cases hq : partialPred (profileNorm ps) s = true
        · exact Or.inr (Or.inl (List.mem_filter.mpr ⟨hs, hq⟩))
        · refine Or.inr (Or.inr (List.mem_filter.mpr ⟨hs, ?_⟩))
          simp only [Bool.not_eq_true']
          have hnot : s ∉ (List.filter (exactPred (profileNorm ps)) (detectSkills jt) ++
              List.filter (partialPred (profileNorm ps)) (detectSkills jt)) := by
            intro hmem
            rcases List.mem_append.mp hmem with hmem | hmem
            · exact he (List.mem_filter.mp hmem).2
            · exact hq (List.mem_filter.mp hmem).2
          simpa using hnot
    · intro hs
      rcases hs with hs | hs | hs <;> exact (List.mem_filter.mp hs).1
  · intro s hm hp
    have h1 := (List.mem_filter.mp hm).2
    have h2 := (List.mem_filter.mp hp).2
    rw [exactPred_not_partialPred _ _ h1] at h2
    exact Bool.false_ne_true h2
  · intro s hm hmiss
    have h2 := (List.mem_filter.mp hmiss).2
    simp only [Bool.not_eq_true'] at h2
    have hmm : s ∈ (List.filter (exactPred (profileNorm ps)) (detectSkills jt) ++
        List.filter (partialPred (profileNorm ps)) (detectSkills jt)) :=
      List.mem_append.mpr (Or.inl hm)
    have hc : (List.filter (exactPred (profileNorm ps)) (detectSkills jt) ++
        List.filter (partialPred (profileNorm ps)) (detectSkills jt)).contains s = true := by
      simpa using hmm
    rw [hc] at h2
    simp at h2
  · intro s hp hmiss
    have h2 := (List.mem_filter.mp hmiss).2
    simp only [Bool.not_eq_true'] at h2
    have hmm : s ∈ (List.filter (exactPred (profileNorm ps)) (detectSkills jt) ++
        List.filter (partialPred (profileNorm ps)) (detectSkills jt)) :=
      List.mem_append.mpr (Or.inr hp)
    have hc : (List.filter (exactPred (profileNorm ps)) (detectSkills jt) ++
        List.filter (partialPred (profileNorm ps)) (detectSkills jt)).contains s = true := by
      simpa using hmm
    rw [hc] at h2
    simp at h2

/-- The combined matched+partial count never exceeds the detected
count. -/
theorem matched_add_partial_le_detected (ps : List String) (jt : String) :
    ((detectSkills jt).filter (exactPred (profileNorm ps))).length +
      ((detectSkills jt).filter (partialPred (profileNorm ps))).length ≤
      (detectSkills jt).length :=
  filter_disjoint_length_le _ _ (exactPred_not_partialPred (profileNorm ps)) (detectSkills jt)

/-- Round-half-up of a non-negative rational is non-negative. -/
theorem jsRound_nonneg (q : ℚ) (h : 0 ≤ q) : 0 ≤ jsRound q := by
  unfold jsRound
  refine Int.le_floor.mpr ?_
  push_cast
  linarith

/-- Round-half-up of a rational at most 100 is at most 100. -/
theorem jsRound_le_100 (q : ℚ) (h : q ≤ 100) : jsRound q ≤ 100 := by
  unfold jsRound
  have hlt : q + (1 : ℚ) / 2 < ((101 : ℤ) : ℚ) := by
    push_cast
    linarith
  have := Int.floor_lt.mpr hlt
  omega

/-- C4 (amended): on the local Matcher path the score is exactly the
round-half-up percentage of matched+partial over `max(detected, 1)`,
hence always within `[0, 100]`, and zero when nothing was detected. -/
theorem c4_local_score_spec (ps : List String) (jt : String) :
    (localCompatibilityAnalysis ps jt).score =
      jsRound (100 * (((localCompatibilityAnalysis ps jt).matched_skills.length +
          (localCompatibilityAnalysis ps jt).partial_matches.length : ℕ) : ℚ) /
        ((max (localCompatibilityAnalysis ps jt).total_skills 1 : ℕ) : ℚ)) ∧
    0 ≤ (localCompatibilityAnalysis ps jt).score ∧
    (localCompatibilityAnalysis ps jt).score ≤ 100 ∧
    ((localCompatibilityAnalysis ps jt).total_skills = 0 →
      (localCompatibilityAnalysis ps jt).score = 0) := by
  have hm := matched_add_partial_le_detected ps jt
  have hden : 0 < max (detectSkills jt).length 1 := by omega
  have hform : (localCompatibilityAnalysis ps jt).score =
      jsRound (100 * (((localCompatibilityAnalysis ps jt).matched_skills.length +
          (localCompatibilityAnalysis ps jt).partial_matches.length : ℕ) : ℚ) /
        ((max (localCompatibilityAnalysis ps jt).total_skills 1 : ℕ) : ℚ)) := by
    rw [local_score_def, jsRoundDiv_eq _ _ hden, local_matched_def, local_partial_def,
      local_total_def]
    congr 1
  have hmd : (localCompatibilityAnalysis ps jt).matched_skills.length +
      (localCompatibilityAnalysis ps jt).partial_matches.length ≤
      max (localCompatibilityAnalysis ps jt).total_skills 1 := by
    rw [local_matched_def, local_partial_def, local_total_def]
    exact le_trans hm (Nat.le_max_left _ _)
  have hdq : (0 : ℚ) < ((max (localCompatibilityAnalysis ps jt).total_skills 1 : ℕ) : ℚ) := by
    rw [local_total_def]
    exact_mod_cast hden
  refine ⟨hform, ?_, ?_, ?_⟩
  · rw [hform]
    apply jsRound_nonneg
    positivity
  · rw [hform]
    apply jsRound_le_100
    rw [div_le_iff₀ hdq]
    have hc : (((localCompatibilityAnalysis ps jt).matched_skills.length +
        (localCompatibilityAnalysis ps jt).partial_matches.length : ℕ) : ℚ) ≤
        ((max (localCompatibilityAnalysis ps jt).total_skills 1 : ℕ) : ℚ) := by
      exact_mod_cast hmd
    nlinarith
  · intro h0
    rw [local_total_def] at h0
    have hD : detectSkills jt = [] := List.length_eq_zero.mp h0
    rw [local_score_def, hD]
    simp only [List.filter_nil, List.length_nil]
    decide

/-- C4 counterexample: on the remote-success path (non-degenerate
response) the score is recomputed as `round(100·matched/total)` from the
remote-reported total, which can leave `[0, 100]` entirely — here a
remote response with five matched skills and a reported total of 1
produces a score of 500. -/
theorem c4_remote_score_counterexample :
    (analyzeWithBackendSuccess [] "any job description"
      { score := none, matched_skills := ["python", "java", "go", "ruby", "rust"],
        partial_matches := [], missing_skills := [], matched_count := none,
        total_skills := some 1, suggestions := [] }).score = 500 ∧
    ¬((analyzeWithBackendSuccess [] "any job description"
      { score := none, matched_skills := ["python", "java", "go", "ruby", "rust"],
        partial_matches := [], missing_skills := [], matched_count := none,
        total_skills := some 1, suggestions := [] }).score ≤ 100) := by
  decide

/-- C4 witness: discharging the zero-detection hypothesis at a concrete
empty job text. -/
theorem c4_witness :
    (localCompatibilityAnalysis ["Python"] "").score = 0 :=
  (c4_local_score_spec ["Python"] "").2.2.2 (by decide)

/-- C1: a remote response with empty matched and partial lists is
overridden by a fresh local analysis — matched/partial/missing/score
(and the counts) are the local Matcher's, the remote's non-skill
`suggestions` field is preserved, and the source becomes
`backend+local`; a remote response with at least one matched or partial
skill keeps its own skill lists untouched. -/
theorem c1_degenerate_override (ps : List String) (jt : String) (r : RemoteResp) :
    (r.matched_skills = [] → r.partial_matches = [] →
      analyzeWithBackendSuccess ps jt r =
        { score := (localCompatibilityAnalysis ps jt).score
          matched_skills := (localCompatibilityAnalysis ps jt).matched_skills
          partial_matches := (localCompatibilityAnalysis ps jt).partial_matches
          missing_skills := (localCompatibilityAnalysis ps jt).missing_skills
          matched_count := some (localCompatibilityAnalysis ps jt).matched_count
          total_skills := some ((localCompatibilityAnalysis ps jt).total_skills : ℤ)
          suggestions := r.suggestions
          analysis_source := "backend+local" }) ∧
    (r.matched_skills.length + r.partial_matches.length ≠ 0 →
      (analyzeWithBackendSuccess ps jt r).matched_skills = r.matched_skills ∧
      (analyzeWithBackendSuccess ps jt r).partial_matches = r.partial_matches ∧
      (analyzeWithBackendSuccess ps jt r).missing_skills = r.missing_skills ∧
      (analyzeWithBackendSuccess ps jt r).suggestions = r.suggestions ∧
      (analyzeWithBackendSuccess ps jt r).analysis_source = "backend") := by
  constructor
  · intro hm hp
    obtain ⟨sc, ms, pm, mi, mc, ts, sug⟩ := r
    simp only at hm hp
    subst hm
    subst hp
    rfl
  · intro hne
    unfold analyzeWithBackendSuccess
    rw [if_neg hne]
    exact ⟨rfl, rfl, rfl, rfl, rfl⟩

/-- C1 witness: a concrete degenerate remote response over a concrete
profile and job text. -/
theorem c1_witness :
    analyzeWithBackendSuccess ["Python"] "Need a senior Python engineer"
      { score := some 77, matched_skills := [], partial_matches := [],
        missing_skills := [], matched_count := none, total_skills := some 0,
        suggestions := ["tighten your summary"] } =
      { score := (localCompatibilityAnalysis ["Python"] "Need a senior Python engineer").score
        matched_skills :=
          (localCompatibilityAnalysis ["Python"] "Need a senior Python engineer").matched_skills
        partial_matches :=
          (localCompatibilityAnalysis ["Python"] "Need a senior Python engineer").partial_matches
        missing_skills :=
          (localCompatibilityAnalysis ["Python"] "Need a senior Python engineer").missing_skills
        matched_count :=
          some (localCompatibilityAnalysis ["Python"] "Need a senior Python engineer").matched_count
        total_skills :=
          some ((localCompatibilityAnalysis ["Python"] "Need a senior Python engineer").total_skills : ℤ)
        suggestions := ["tighten your summary"]
        analysis_source := "backend+local" } :=
  (c1_degenerate_override ["Python"] "Need a senior Python engineer" _).1 rfl rfl

/-- C5: when both remote attempts fail, the composed resolve operation
returns exactly the local analysis (with source `local`); no error
reaches the caller — the operation yields an ordinary result object. -/
theorem c5_all_remote_failures_fall_back_local (ps : List String) (jt : String)
    (remote : Nat → Except String RemoteResp)
    (h0 : exOk (remote 0) = false) (h1 : exOk (remote 1) = false) :
    analyzeWithBackend ps jt remote =
      localAsComposed (localCompatibilityAnalysis ps jt) ∧
    (analyzeWithBackend ps jt remote).analysis_source = "local" := by
  have hrange : List.range 2 = [0, 1] := rfl
  have hroute : (routeAttempts remote).1 = none := by
    unfold routeAttempts
    rw [hrange]
    cases hr0 : remote 0 with
    | ok v => rw [hr0] at h0; simp [exOk] at h0
    | error e0 =>
      cases hr1 : remote 1 with
      | ok v => rw [hr1] at h1; simp [exOk] at h1
      | error e1 => simp [runAttempts, hr0, hr1]
  constructor
  · unfold analyzeWithBackend
    rw [hroute]
  · unfold analyzeWithBackend
    rw [hroute]
    rfl

/-- C5 witness: a remote that always fails. -/
theorem c5_witness :
    analyzeWithBackend ["Python"] "Hiring Python developers"
      (fun _ => Except.error "connection refused") =
      localAsComposed (localCompatibilityAnalysis ["Python"] "Hiring Python developers") :=
  (c5_all_remote_failures_fall_back_local ["Python"] "Hiring Python developers"
    (fun _ => Except.error "connection refused") rfl rfl).1

/-- C6: the cache-miss remote loop makes at most 2 calls; a remote
failing on both attempts is called exactly twice (never a third time)
and the single wait, taken before the second attempt, is
`1000 * 1 = 1000` ms; a first-attempt success makes exactly one call
with no wait. -/
theorem c6_retry_bound (remote : Nat → Except String RemoteResp) :
    routeAttemptCount remote ≤ 2 ∧
    (exOk (remote 0) = false → exOk (remote 1) = false →
      routeAttemptCount remote = 2 ∧ routeWaits remote = [1000]) ∧
    (exOk (remote 0) = true → routeAttemptCount remote = 1 ∧ routeWaits remote = []) := by
  have hrange : List.range 2 = [0, 1] := rfl
  unfold routeAttemptCount routeWaits routeAttempts
  rw [hrange]
  cases hr0 : remote 0 with
  | ok v =>
    refine ⟨by simp [runAttempts, hr0], ?_, ?_⟩
    · intro h0 _
      simp [exOk] at h0
    · intro _
      constructor <;> simp [runAttempts, hr0]
  | error e0 =>
    cases hr1 : remote 1 with
    | ok v =>
      refine ⟨by simp [runAttempts, hr0, hr1], ?_, ?_⟩
      · intro _ h1
        simp [exOk] at h1
      · intro h0
        simp [exOk] at h0
    | error e1 =>
      refine ⟨by simp [runAttempts, hr0, hr1], ?_, ?_⟩
      · intro _ _
        constructor <;> simp [runAttempts, hr0, hr1]
      · intro h0
        simp [exOk] at h0

/-- C6 witness: a remote failing on every attempt is called exactly
twice with a single 1000 ms wait. -/
theorem c6_witness :
    routeAttemptCount (fun _ => Except.error "timeout") = 2 ∧
    routeWaits (fun _ => Except.error "timeout") = [1000] :=
  (c6_retry_bound (fun _ => Except.error "timeout")).2.1 rfl rfl

/-- Modelled from the spec: the rejection condition of the caller-facing
match operation as the claim words it — `profile` absent (undefined or
null) or not an object, `job_text` absent or not a string, or `job_text`
a string shorter than 20 characters. -/
def specValidationRejects (body : Option ReqBody) : Prop :=
  match body with
  | none => True
  | some p =>
    (p.profile = JSValue.vundef ∨ p.profile = JSValue.vnull ∨ typeOf p.profile ≠ "object") ∨
    (p.job_text = JSValue.vundef ∨ p.job_text = JSValue.vnull ∨ typeOf p.job_text ≠ "string") ∨
    (∃ s, p.job_text = JSValue.vstr s ∧ s.length < 20)

/-- `validatePayload` accepts a payload exactly when every check of the
source chain passes. -/
theorem validatePayload_none_iff (pp pj : JSValue) :
    validatePayload (some { profile := pp, job_text := pj }) = none ↔
      (truthy pp = true ∧ truthy pj = true ∧ typeOf pp = "object" ∧
       typeOf pj = "string" ∧ ¬(jsLength pj < 20)) := by
  unfold validatePayload
  dsimp only
  split_ifs with h1 h2 h3 h4 h5 <;> simp_all

/-- The profile checks of the chain pass exactly when the profile is
present and an object in the spec sense. -/
theorem profile_checks_iff (pp : JSValue) :
    (truthy pp = true ∧ typeOf pp = "object") ↔
      ¬(pp = JSValue.vundef ∨ pp = JSValue.vnull ∨ typeOf pp ≠ "object") := by
  cases pp <;> simp [truthy, typeOf]

/-- The job-text checks of the chain pass exactly when `job_text` is a
present string of length at least 20. -/
theorem job_checks_iff (pj : JSValue) :
    (truthy pj = true ∧ typeOf pj = "string" ∧ ¬(jsLength pj < 20)) ↔
      ¬((pj = JSValue.vundef ∨ pj = JSValue.vnull ∨ typeOf pj ≠ "string") ∨
        (∃ s, pj = JSValue.vstr s ∧ s.length < 20)) := by
  cases pj <;> try simp [truthy, typeOf, jsLength]
  rename_i s
  by_cases hs : s = "" <;> simp [truthy, typeOf, jsLength, hs]

/-- C7: `validatePayload` rejects exactly the payloads the spec
describes, and a rejected request is answered 400 with no remote call
(hence no retry and no fallback computation). -/
theorem c7_validation_iff (body : Option ReqBody) (cached : Bool)
    (remote : Nat → Except String RemoteResp) :
    ((validatePayload body).isSome ↔ specValidationRejects body) ∧
    ((validatePayload body).isSome →
      matchRouteOutcome body cached remote =
        { status := 400, code := "VALIDATION_ERROR", remoteCalls := 0 }) := by
  constructor
  · cases body with
    | none => simp [validatePayload, specValidationRejects]
    | some p =>
      obtain ⟨pp, pj⟩ := p
      have hne : (validatePayload (some { profile := pp, job_text := pj })).isSome = true ↔
          ¬(validatePayload (some { profile := pp, job_text := pj }) = none) := by
        cases hv : validatePayload (some { profile := pp, job_text := pj }) <;> simp
      rw [hne, validatePayload_none_iff]
      have hgroup : (truthy pp = true ∧ truthy pj = true ∧ typeOf pp = "object" ∧
          typeOf pj = "string" ∧ ¬(jsLength pj < 20)) ↔
          (¬(pp = JSValue.vundef ∨ pp = JSValue.vnull ∨ typeOf pp ≠ "object") ∧
           ¬((pj = JSValue.vundef ∨ pj = JSValue.vnull ∨ typeOf pj ≠ "string") ∨
             (∃ s, pj = JSValue.vstr s ∧ s.length < 20))) := by
        rw [← profile_checks_iff, ← job_checks_iff]
        tauto
      rw [hgroup, not_and_or, not_not, not_not]
      simp only [specValidationRejects]
  · intro h
    unfold matchRouteOutcome
    obtain ⟨msg, hmsg⟩ := Option.isSome_iff_exists.mp h
    rw [hmsg]

/-- C7 witness: a well-typed but too-short `job_text` is rejected with
no remote call. -/
theorem c7_witness :
    matchRouteOutcome (some { profile := JSValue.vobj, job_text := JSValue.vstr "too short" })
      false (fun _ => Except.error "unused") =
      { status := 400, code := "VALIDATION_ERROR", remoteCalls := 0 } :=
  (c7_validation_iff _ false (fun _ => Except.error "unused")).2 (by decide)

/-- C9 counterexample: the server-side assistant route's improve branch
replies with the missing skills only — for a last match with score 42
and a non-empty missing list, the reply to "how can I improve" does not
contain the numeral "42". -/
theorem c9_route_reply_counterexample :
    hasSub "42".data
      (assistantRouteReply "how can I improve"
        { score := 42, matched_skills := ["python"], missing_skills := ["docker"],
          suggestions := [] }).data = false := by
  decide

/-- C9 (amended): the extension's fallback assistant responder does
include the score — for every last match whose score is 42, its reply to
"how can I improve" contains the numeral "42". -/
theorem c9_fallback_reply_contains_score (lm : LastMatch) (h : lm.score = 42) :
    hasSub "42".data
      (generateFallbackAssistantResponse "how can I improve" lm).reply.data = true := by
  unfold generateFallbackAssistantResponse
  dsimp only
  have hcond : (hasSub "improve".data (lowerStr "how can I improve").data ||
      hasSub "better".data (lowerStr "how can I improve").data) = true := by decide
  rw [hcond]
  simp only [if_true]
  rw [h]
  rw [String.data_append]
  apply hasSub_append
  rw [String.data_append]
  apply hasSub_append
  decide

/-- C9 witness: a concrete last match with score 42. -/
theorem c9_witness :
    hasSub "42".data
      (generateFallbackAssistantResponse "how can I improve"
        { score := 42, matched_skills := [], missing_skills := ["docker"],
          suggestions := [] }).reply.data = true :=
  c9_fallback_reply_contains_score
    { score := 42, matched_skills := [], missing_skills := ["docker"], suggestions := [] } rfl

/-- C8 counterexample: the matcher's canonicalizer sends `react.js` to
`reactjs`, not `react`, and is not idempotent — `css-3` normalizes to
`css3`, which the synonym table then maps to `css` on a second pass. -/
theorem c8_canon_counterexample :
    localCanon "react.js" = "reactjs" ∧ "reactjs" ≠ "react" ∧
    localCanon (localCanon "css-3") ≠ localCanon "css-3" := by
  decide

/-- C8 (amended): the matcher's canonicalizer folds C++/cpp to `cpp` and
Node.js/nodejs to `nodejs`, but react.js/reactjs to `reactjs`; unmapped
tokens pass through lowercased with parentheticals and all other
non-alphanumerics stripped; it is not idempotent in general
(css-3 ↦ css3 ↦ css).  The distinct profile-preparation canonicalizer is
the one that maps react.js/reactjs to `react`, while sending C++/cpp to
`c++` and Node.js/nodejs to `node.js`. -/
theorem c8_canon_table :
    localCanon "C++" = "cpp" ∧ localCanon "cpp" = "cpp" ∧
    localCanon "Node.js" = "nodejs" ∧ localCanon "nodejs" = "nodejs" ∧
    localCanon "react.js" = "reactjs" ∧ localCanon "reactjs" = "reactjs" ∧
    localCanon "TypeScript (beginner)" = "typescript" ∧
    localCanon "css-3" = "css3" ∧ localCanon "css3" = "css" ∧
    prepareProfileCanon "C++" = "c++" ∧ prepareProfileCanon "cpp" = "c++" ∧
    prepareProfileCanon "Node.js" = "node.js" ∧ prepareProfileCanon "nodejs" = "node.js" ∧
    prepareProfileCanon "react.js" = "react" ∧ prepareProfileCanon "reactjs" = "react" ∧
    prepareProfileCanon "TypeScript (beginner)" = "typescript" := by
  decide

/-- C2 counterexample: on the spec's example inputs the matcher puts
`react` and `postgresql` in the partial bucket (not matched resp.
missing) and scores 80, not 67. -/
theorem c2_example_counterexample :
    "react" ∉ (localCompatibilityAnalysis ["Python", "React.js", "SQL"]
      "Looking for a Python developer with React and PostgreSQL experience").matched_skills ∧
    "postgresql" ∉ (localCompatibilityAnalysis ["Python", "React.js", "SQL"]
      "Looking for a Python developer with React and PostgreSQL experience").missing_skills ∧
    (localCompatibilityAnalysis ["Python", "React.js", "SQL"]
      "Looking for a Python developer with React and PostgreSQL experience").score ≠ 67 := by
  decide

/-- C2 (amended): on the example inputs the detected list is
`[python, react, sql, postgresql, postgres]` (the substring branch also
fires on `sql` and `postgres` inside "PostgreSQL"); `python` and `sql`
are matched, `react` (profile `React.js` canonicalizes to `reactjs`,
which only contains `react`) and `postgresql` (which contains the
profile's `sql`) are partial, `postgres` is missing, and the score is
`round(100·4/5) = 80`. -/
theorem c2_example_scenario :
    detectSkills "Looking for a Python developer with React and PostgreSQL experience" =
      ["python", "react", "sql", "postgresql", "postgres"] ∧
    localCompatibilityAnalysis ["Python", "React.js", "SQL"]
      "Looking for a Python developer with React and PostgreSQL experience" =
      { score := 80
        matched_skills := ["python", "sql"]
        partial_matches := ["react", "postgresql"]
        missing_skills := ["postgres"]
        matched_count := 4
        total_skills := 5
        suggestions :=
          ["Add missing technical skills to your profile",
           "Highlight relevant experience in your summary",
           "Include specific projects that demonstrate required skills",
           "Consider obtaining certifications for missing technologies"]
        analysis_source := "local" } := by
  decide

/-- C10: the payload posted to the ML service depends on the job text
only through its first 20000 characters, which are sent verbatim as the
job description. -/
theorem c10_ml_request_truncation (P : Type) (profile : P) (t1 t2 : String)
    (h : t1.data.take 20000 = t2.data.take 20000) :
    buildMLRequest profile t1 = buildMLRequest profile t2 ∧
    (buildMLRequest profile t1).description = t1.data.take 20000 := by
  constructor
  · unfold buildMLRequest
    rw [h]
  · rfl

/-- C10 witness: two job texts of length 20001 agreeing on their first
20000 characters yield identical ML payloads. -/
theorem c10_witness :
    buildMLRequest (0 : Nat) ⟨List.replicate 20001 'a'⟩ =
      buildMLRequest (0 : Nat) ⟨List.replicate 20000 'a' ++ ['b']⟩ :=
  (c10_ml_request_truncation Nat 0 ⟨List.replicate 20001 'a'⟩ ⟨List.replicate 20000 'a' ++ ['b']⟩
    (by
      show (List.replicate 20001 'a').take 20000 =
        (List.replicate 20000 'a' ++ ['b']).take 20000
      rw [List.take_replicate,
        List.take_left' (List.length_replicate 20000 'a'),
        Nat.min_eq_left (by omega : (20000 : ℕ) ≤ 20001)])).1

/-- C3 witness: on the example inputs, `python` is detected, is in the
matched bucket, and the partition theorem places it outside the partial
bucket. -/
theorem c3_witness :
    "python" ∉ (localCompatibilityAnalysis ["Python", "React.js", "SQL"]
      "Looking for a Python developer with React and PostgreSQL experience").partial_matches :=
  (c3_buckets_partition_detected ["Python", "React.js", "SQL"]
    "Looking for a Python developer with React and PostgreSQL experience").2.1 "python"
    (by decide)
